import Mathlib

/-
Verification of the Feishu channel adapter (src/channels/feishu.ts, with the
feishu-ws.ts and feishu-sdk-ws.ts variants) against its specification.

The TypeScript classes are shallowly embedded as pure Lean functions over an
explicit state record.  Network interactions (fetch results from the token
endpoint, the message-send endpoint and the chat-list endpoint) are passed in
as explicit response values; a network-level failure of fetch (a thrown
exception) is modelled by the value none.  Timestamps are integers in
milliseconds, matching Date.now().  JavaScript string falsiness (null or the
empty string) is modelled explicitly wherever the source relies on it.
-/

namespace Feishu

/-- Safety margin before token expiry, 5 * 60 * 1000 ms, as hard-coded in
ensureToken (feishu.ts line 351) and in the refresh-timer computation
(line 141). -/
def marginMs : Int := 5 * 60 * 1000

/-- GROUP_SYNC_INTERVAL_MS, 24 hours in milliseconds (feishu.ts line 14). -/
def groupSyncIntervalMs : Int := 24 * 60 * 60 * 1000

/-- JavaScript falsiness of a nullable string: null/absent or the empty
string.  Used where the source tests a string field with if (!x) or
x || y. -/
def strFalsy : Option String → Bool
  | none => true
  | some s => s == ""

/-- JavaScript a || b for strings: b when a is empty, else a. -/
def jsOr (a b : String) : String :=
  if a == "" then b else a

/-- The tenant-token fields of FeishuChannel: tenantToken (line 94, initially
null) and tokenExpiry (line 95, initially 0). -/
structure TokState where
  tenantToken : Option String
  tokenExpiry : Int
deriving DecidableEq, Repr

/-- Body of a response from the token endpoint as read by refreshToken
(feishu.ts lines 331-342): response.ok, data.code, data.tenant_access_token
and data.expire (a lifetime in seconds). -/
structure TokenResponse where
  ok : Bool
  code : Int
  tenant_access_token : String
  expire : Int
deriving DecidableEq, Repr

/-- FeishuChannel.refreshToken (feishu.ts lines 318-348).  Returns the new
token state together with the error it throws, if any: none response models a
thrown fetch; a non-ok response or a non-zero data.code throws before any
assignment; only the success path assigns tenantToken and
tokenExpiry = Date.now() + expire * 1000.  The catch clause logs and
rethrows, so the error component is what the caller observes. -/
def refreshToken (now : Int) (resp : Option TokenResponse) (tok : TokState) :
    TokState × Option String :=
  match resp with
  | none => (tok, some ("fetch failed"))
  | some r =>
    if !r.ok then (tok, some ("Token refresh failed"))
    else if r.code != 0 then (tok, some ("Token refresh error"))
    else ({ tenantToken := some r.tenant_access_token,
            tokenExpiry := now + r.expire * 1000 }, none)

/-- The staleness test of ensureToken (feishu.ts line 351):
!this.tenantToken || Date.now() >= this.tokenExpiry - 5 * 60 * 1000. -/
def ensureStale (now : Int) (tok : TokState) : Bool :=
  strFalsy tok.tenantToken || now ≥ tok.tokenExpiry - marginMs

/-- Result of a call to ensureToken: the token state afterwards, the error it
throws (if the refresh it awaited failed), the returned token string, and how
many network refresh requests the call issued. -/
structure EnsureResult where
  tok : TokState
  err : Option String
  token : String
  refreshes : Nat
deriving DecidableEq, Repr

/-- FeishuChannel.ensureToken (feishu.ts lines 350-355): when the cached token
is falsy or within the safety margin of expiry, awaits refreshToken (whose
failure propagates), then returns this.tenantToken!. -/
def ensureToken (now : Int) (resp : Option TokenResponse) (tok : TokState) :
    EnsureResult :=
  if ensureStale now tok then
    match refreshToken now resp tok with
    | (tok₁, some e) => ⟨tok₁, some e, "", 1⟩
    | (tok₁, none) => ⟨tok₁, none, tok₁.tenantToken.getD (""), 1⟩
  else ⟨tok, none, tok.tenantToken.getD (""), 0⟩

/-- Body of a response from the message-send endpoint as read by
sendMessageToFeishu (feishu.ts lines 392-400): response.ok and data.code. -/
structure SendResponse where
  ok : Bool
  code : Int
deriving DecidableEq, Repr

/-- Result of a call to sendMessageToFeishu: the token state afterwards,
whether a delivery attempt actually reached the provider endpoint (the fetch
to /im/v1/messages was issued), and the error the call throws, if any. -/
structure SendAttemptResult where
  tok : TokState
  attempted : Bool
  err : Option String
deriving DecidableEq, Repr

/-- FeishuChannel.sendMessageToFeishu (feishu.ts lines 376-401): first awaits
ensureToken (a failure there propagates before any delivery attempt), then
posts the message; a thrown fetch, a non-ok response, or a non-zero data.code
each throw. -/
def sendMessageToFeishu (now : Int) (tokResp : Option TokenResponse)
    (sendResp : Option SendResponse) (tok : TokState) : SendAttemptResult :=
  let er := ensureToken now tokResp tok
  match er.err with
  | some e => ⟨er.tok, false, some e⟩
  | none =>
    match sendResp with
    | none => ⟨er.tok, true, some ("fetch failed")⟩
    | some r =>
      if !r.ok then ⟨er.tok, true, some ("Failed to send message")⟩
      else if r.code != 0 then ⟨er.tok, true, some ("Feishu API error")⟩
      else ⟨er.tok, true, none⟩

/-- An entry of the outgoingQueue (feishu.ts line 97): the already-stripped
chat id and the text. -/
structure OutItem where
  chatId : String
  text : String
deriving DecidableEq, Repr

/-- The mutable state of a FeishuChannel instance that the claims are about:
connected (line 92), the token fields, outgoingQueue (line 97) and the
flushing flag (line 98). -/
structure ChannelState where
  connected : Bool
  tok : TokState
  outgoingQueue : List OutItem
  flushing : Bool
deriving DecidableEq, Repr

/-- The chat-id normalisation at the top of sendMessage (feishu.ts line 359):
strip one leading feishu_ prefix, then one trailing @feishu.net suffix (both
regexes are anchored and replace at most one occurrence).  The two anchored
matches are expressed as character-list prefix/suffix tests so that the
function computes by kernel reduction. -/
def stripJid (chatId : String) : String :=
  let a :=
    if List.isPrefixOf ("feishu_").data chatId.data then chatId.drop 7
    else chatId
  if List.isSuffixOf ("@feishu.net").data a.data then a.dropRight 11 else a

/-- Result of a call to sendMessage: the state afterwards and the delivery
attempts the call made at the provider.  sendMessage never throws (the send
failure is caught, line 370), which the total return type records: the
caller's promise always resolves. -/
structure SendMessageResult where
  state : ChannelState
  attempts : List OutItem
deriving DecidableEq, Repr

/-- FeishuChannel.sendMessage (feishu.ts lines 357-374): when disconnected,
appends the stripped item to the tail of outgoingQueue and returns; when
connected, attempts immediate delivery, and on any thrown error appends the
same item to the tail of outgoingQueue, swallowing the error. -/
def sendMessage (now : Int) (tokResp : Option TokenResponse)
    (sendResp : Option SendResponse) (chatId text : String)
    (s : ChannelState) : SendMessageResult :=
  let actual := stripJid chatId
  if !s.connected then
    ⟨{ s with outgoingQueue := s.outgoingQueue ++ [⟨actual, text⟩] }, []⟩
  else
    let r := sendMessageToFeishu now tokResp sendResp s.tok
    let att := if r.attempted then [(⟨actual, text⟩ : OutItem)] else []
    match r.err with
    | none => ⟨{ s with tok := r.tok }, att⟩
    | some _ =>
      ⟨{ s with tok := r.tok,
                outgoingQueue := s.outgoingQueue ++ [⟨actual, text⟩] }, att⟩

/-- Result of the flush loop: token state afterwards, the queue that remains,
the delivery attempts made in order, and whether the loop was aborted by a
thrown send error. -/
structure FlushResult where
  tok : TokState
  queue : List OutItem
  attempts : List OutItem
  aborted : Bool
deriving DecidableEq, Repr

/-- The while-loop of flushOutgoingQueue (feishu.ts lines 486-489): shift the
head, await sendMessageToFeishu on it, repeat; a thrown error escapes the
loop (the shifted item is not re-enqueued) and the finally clause runs.  The
oracle gives the provider responses for the k-th iteration. -/
def flushGo (now : Int)
    (oracle : Nat → Option TokenResponse × Option SendResponse) :
    Nat → List OutItem → TokState → FlushResult
  | _, [], tok => ⟨tok, [], [], false⟩
  | k, item :: rest, tok =>
    let pr := oracle k
    let r := sendMessageToFeishu now pr.1 pr.2 tok
    let att := if r.attempted then [item] else []
    match r.err with
    | some _ => ⟨r.tok, rest, att, true⟩
    | none =>
      let f := flushGo now oracle (k + 1) rest r.tok
      ⟨f.tok, f.queue, att ++ f.attempts, f.aborted⟩

/-- Result of flushOutgoingQueue: state, attempts made, and whether the run
ended with a thrown (propagated) send error. -/
structure FlushOutcome where
  state : ChannelState
  attempts : List OutItem
  aborted : Bool
deriving DecidableEq, Repr

/-- FeishuChannel.flushOutgoingQueue (feishu.ts lines 481-493): a no-op when a
flush is already in progress or the queue is empty; otherwise sets flushing,
drains head-to-tail, and clears flushing in the finally clause even when a
send throws. -/
def flushOutgoingQueue (now : Int)
    (oracle : Nat → Option TokenResponse × Option SendResponse)
    (s : ChannelState) : FlushOutcome :=
  if s.flushing || s.outgoingQueue.isEmpty then ⟨s, [], false⟩
  else
    let f := flushGo now oracle 0 s.outgoingQueue s.tok
    ⟨{ s with tok := f.tok, outgoingQueue := f.queue, flushing := false },
      f.attempts, f.aborted⟩

/-- Result of connect: the state afterwards, the delivery attempts made during
the call, and the error it rejects with, if any. -/
structure ConnectResult where
  state : ChannelState
  attempts : List OutItem
  err : Option String
deriving DecidableEq, Repr

/-- FeishuChannel.connect (feishu.ts lines 133-156): awaits refreshToken (a
failure rejects connect before anything else), starts the webhook server and
the two interval timers, then sets connected = true.  No statement of the
method, and no other code path in the file, invokes flushOutgoingQueue, so
connect itself makes no delivery attempts; the attempts component records
this. -/
def connect (now : Int) (tokResp : Option TokenResponse) (s : ChannelState) :
    ConnectResult :=
  match refreshToken now tokResp s.tok with
  | (tok₁, some e) => ⟨{ s with tok := tok₁ }, [], some e⟩
  | (tok₁, none) => ⟨{ s with tok := tok₁, connected := true }, [], none⟩

/-- The sender_id object of a Feishu event (feishu.ts lines 43-47). -/
structure SenderId where
  union_id : String
  user_id : String
  open_id : String
deriving DecidableEq, Repr

/-- The sender object of a Feishu event (feishu.ts lines 42-50). -/
structure EventSender where
  sender_id : SenderId
  sender_type : String
deriving DecidableEq, Repr

/-- The message object of a Feishu event, restricted to the fields the adapter
reads (feishu.ts lines 51-59). -/
structure EventMessage where
  message_id : String
  create_time : String
  chat_id : String
  content : String
deriving DecidableEq, Repr

/-- The event body of a Feishu im.message.receive_v1 event (feishu.ts
lines 41-85). -/
structure EventBody where
  sender : EventSender
  message : EventMessage
deriving DecidableEq, Repr

/-- The parsed message content as read by handleMessageEvent (feishu.ts
lines 28-30): an object with an optional text field. -/
structure MsgContent where
  text : Option String
deriving DecidableEq, Repr

/-- The canonical inbound message record handed to opts.onMessage (feishu.ts
lines 307-315). -/
structure InboundMessage where
  id : String
  chat_jid : String
  sender : String
  sender_name : String
  content : String
  timestamp : String
  is_from_me : Bool
deriving DecidableEq, Repr

/-- The externally observable callback invocations of one inbound event:
each onChatMetadata call (chatJid, timestampIso) and each onMessage call
(chatJid, message), in order. -/
structure CallbackTrace where
  metadataCalls : List (String × String)
  messageCalls : List (String × InboundMessage)
deriving DecidableEq, Repr

/-- FeishuChannel.handleMessageEvent (feishu.ts lines 274-316).  The
timestamp conversion new Date(parseInt(create_time)).toISOString() is
abstracted as the function parameter isoOf, JSON.parse of the content string
as parseContent (none models a parse failure), and the registeredGroups()
record as the membership function registered (truthiness of the record
entry).  Returns the callback invocations the call performs: an event from
the bot itself returns before the onChatMetadata call; an unregistered chat
returns right after it; a content-parse failure returns before onMessage. -/
def handleMessageEvent (isoOf : String → String)
    (parseContent : String → Option MsgContent)
    (registered : String → Bool) (ev : EventBody) : CallbackTrace :=
  if ev.sender.sender_type == "app" then ⟨[], []⟩
  else
    let chatJid := "feishu_" ++ ev.message.chat_id ++ "@feishu.net"
    let ts := isoOf ev.message.create_time
    let meta := [(chatJid, ts)]
    if !(registered chatJid) then ⟨meta, []⟩
    else
      match parseContent ev.message.content with
      | none => ⟨meta, []⟩
      | some c =>
        let text := c.text.getD ("")
        let senderName :=
          jsOr ev.sender.sender_id.user_id
            (jsOr ev.sender.sender_id.open_id ("Unknown"))
        ⟨meta,
          [(chatJid,
            { id := ev.message.message_id
              chat_jid := chatJid
              sender := jsOr ev.sender.sender_id.open_id
                          ev.sender.sender_id.user_id
              sender_name := senderName
              content := text
              timestamp := ts
              is_from_me := false })]⟩

/-- FeishuChannel.processEvent (feishu.ts lines 264-272): dispatches
im.message.receive_v1 events to handleMessageEvent and ignores every other
event type. -/
def processEvent (isoOf : String → String)
    (parseContent : String → Option MsgContent)
    (registered : String → Bool) (eventType : String) (ev : EventBody) :
    CallbackTrace :=
  if eventType == "im.message.receive_v1" then
    handleMessageEvent isoOf parseContent registered ev
  else ⟨[], []⟩

/-- The configuration record of FeishuChannel (feishu.ts lines 101-107,
124-130). -/
structure Config where
  appId : String
  appSecret : String
  verificationToken : String
  encryptKey : Option String
  webhookPort : Nat
deriving DecidableEq, Repr

/-- An incoming webhook HTTP request as seen by handleWebhookRequest: the
path, the method, the raw body, and the x-lark-signature header (none when
absent). -/
structure WebhookRequest where
  path : String
  method : String
  body : String
  signature : Option String
deriving DecidableEq, Repr

/-- Classification of a JSON-parsed webhook body along the branches of
handleWebhookRequest (feishu.ts lines 222-254), in the order the code checks
them: a payload whose type field is url_verification (line 223), an
event-callback payload with schema 2.0, a header token and an event
(line 231), or anything else (which falls through to 400). -/
inductive Payload where
  | urlVerification (challenge : String)
  | eventV2 (token : String) (eventType : String) (ev : EventBody)
  | other
deriving DecidableEq, Repr

/-- The body of a webhook HTTP response: either a plain text body or the
JSON.stringify challenge echo of the url_verification branch (feishu.ts
line 226). -/
inductive RespBody where
  | text (s : String)
  | challengeJson (challenge : String)
deriving DecidableEq, Repr

/-- A webhook HTTP response: status code and body. -/
structure WebhookResponse where
  status : Nat
  body : RespBody
deriving DecidableEq, Repr

/-- The observable outcome of handleWebhookRequest: the response, and the
events handed to processEvent asynchronously after the response was sent
(feishu.ts line 247). -/
structure WebhookOutcome where
  response : WebhookResponse
  asyncEvents : List (String × EventBody)
deriving DecidableEq, Repr

/-- FeishuChannel.verifySignature (feishu.ts lines 257-262), with the
HMAC-SHA256 base64 digest abstracted as the keyed hash parameter hmacF
(key, raw body to digest). -/
def verifySignature (hmacF : String → String → String)
    (encryptKey body signature : String) : Bool :=
  hmacF encryptKey body == signature

/-- FeishuChannel.handleWebhookRequest (feishu.ts lines 179-255).  JSON.parse
of the body is abstracted as the parse parameter (none models a parse
failure).  The branches in source order: unknown path 404; non-POST 405; when
a (truthy) encrypt key is configured, a missing/empty or non-matching
signature header 401; unparseable JSON 400; a url_verification payload is
answered 200 with the challenge echo synchronously, with no asynchronous
processing; an event-callback payload with a wrong header token 401,
otherwise 200 OK with the event processed asynchronously afterwards; anything
else 400. -/
def handleWebhookRequest (hmacF : String → String → String)
    (parse : String → Option Payload) (cfg : Config) (req : WebhookRequest) :
    WebhookOutcome :=
  if req.path != "/webhook/feishu" then
    ⟨⟨404, .text ("Not Found")⟩, []⟩
  else if req.method != "POST" then
    ⟨⟨405, .text ("Method Not Allowed")⟩, []⟩
  else
    let sigFail :=
      if strFalsy cfg.encryptKey then false
      else
        match req.signature with
        | none => true
        | some sg =>
          sg == "" ||
            !(verifySignature hmacF (cfg.encryptKey.getD ("")) req.body sg)
    if sigFail then ⟨⟨401, .text ("Unauthorized")⟩, []⟩
    else
      match parse req.body with
      | none => ⟨⟨400, .text ("Bad Request")⟩, []⟩
      | some (.urlVerification c) => ⟨⟨200, .challengeJson c⟩, []⟩
      | some (.eventV2 tk et ev) =>
        if tk != cfg.verificationToken then
          ⟨⟨401, .text ("Unauthorized")⟩, []⟩
        else ⟨⟨200, .text ("OK")⟩, [(et, ev)]⟩
      | some .other => ⟨⟨400, .text ("Bad Request")⟩, []⟩

/-- One item of the chat-list response (feishu.ts line 460): chat_id and name
may each be absent. -/
structure ChatItem where
  chat_id : Option String
  name : Option String
deriving DecidableEq, Repr

/-- Body of a response from the chat-list endpoint as read by
syncGroupMetadata (feishu.ts lines 456-466): response.ok, data.code and
data.data.items (already flattened; an absent data or items field is the
empty list, matching data.data?.items || []). -/
structure ChatsResponse where
  ok : Bool
  code : Int
  items : List ChatItem
deriving DecidableEq, Repr

/-- Modelled from the spec: the external persistent store behind
getLastGroupSync, setLastGroupSync and updateChatName (imported from
../db.js, whose source is not part of this repository snapshot).  Per spec
section 3, the SyncCursor holds lastSyncedAt (written by setLastGroupSync
with the current time, read by getLastGroupSync) and the registry maps chat
keys to chat names (updateChatName writes one pair).  Timestamps are
milliseconds. -/
structure DbState where
  lastGroupSync : Option Int
  chatNames : List (String × String)
deriving DecidableEq, Repr

/-- Result of a call to syncGroupMetadata: the token state afterwards, the
database state afterwards, and how many network calls the invocation made to
the chat-list endpoint. -/
structure SyncResult where
  tok : TokState
  db : DbState
  listCalls : Nat
deriving DecidableEq, Repr

/-- FeishuChannel.syncGroupMetadata (feishu.ts lines 433-479).  Unless
force, returns immediately when the stored lastGroupSync is within
GROUP_SYNC_INTERVAL_MS of now.  Otherwise, inside a try/catch that swallows
every error: awaits ensureToken (a failure ends the call before the chat
list is fetched), fetches the chat list, and on a fully successful response
writes every present (chat_id, name) pair into the registry and then
setLastGroupSync; on any failure the cursor and the registry are left as
they were. -/
def syncGroupMetadata (now : Int) (force : Bool)
    (tokResp : Option TokenResponse) (chatsResp : Option ChatsResponse)
    (tok : TokState) (db : DbState) : SyncResult :=
  let skip :=
    !force &&
      (match db.lastGroupSync with
       | some t => decide (now - t < groupSyncIntervalMs)
       | none => false)
  if skip then ⟨tok, db, 0⟩
  else
    let er := ensureToken now tokResp tok
    match er.err with
    | some _ => ⟨er.tok, db, 0⟩
    | none =>
      match chatsResp with
      | none => ⟨er.tok, db, 1⟩
      | some r =>
        if !r.ok then ⟨er.tok, db, 1⟩
        else if r.code != 0 then ⟨er.tok, db, 1⟩
        else
          let names := r.items.foldl
            (fun acc c =>
              if !(strFalsy c.chat_id) && !(strFalsy c.name) then
                acc ++ [("feishu_" ++ c.chat_id.getD ("") ++ "@feishu.net",
                         c.name.getD (""))]
              else acc)
            db.chatNames
          ⟨er.tok, { lastGroupSync := some now, chatNames := names }, 1⟩

/-- A token-endpoint interaction on which refreshToken throws: a thrown
fetch, a non-ok response, or a non-zero provider code. -/
def tokenRespFails : Option TokenResponse → Bool
  | none => true
  | some r => !r.ok || r.code != 0

/-- A chat-list interaction on which syncGroupMetadata's fetch path throws: a
thrown fetch, a non-ok response, or a non-zero provider code. -/
def chatsRespFails : Option ChatsResponse → Bool
  | none => true
  | some r => !r.ok || r.code != 0

/-- N sequential calls to ensureToken on the same task at the same instant,
each potential refresh answered by the same provider response; returns the
final token state and the total number of network refresh requests issued. -/
def ensureTokenSeq (now : Int) (resp : Option TokenResponse)
    (tok : TokState) : Nat → TokState × Nat
  | 0 => (tok, 0)
  | n + 1 =>
    let er := ensureToken now resp tok
    let rest := ensureTokenSeq now resp er.tok n
    (rest.1, er.refreshes + rest.2)

/-- Two concurrent calls to ensureToken (feishu.ts lines 350-355) under the
schedule in which both run their staleness check before either awaited
refreshToken fetch resolves, and the two refresh writes then land in order.
This schedule is possible because ensureToken holds no in-flight-refresh
guard: the check on line 351 reads only tenantToken/tokenExpiry, which a
concurrently pending refresh has not yet written.  Returns the final token
state and the total number of network refresh requests issued. -/
def interleavedEnsure2 (now : Int) (resp1 resp2 : Option TokenResponse)
    (tok : TokState) : TokState × Nat :=
  let c1 := ensureStale now tok
  let c2 := ensureStale now tok
  let tok1 := if c1 then (refreshToken now resp1 tok).1 else tok
  let tok2 := if c2 then (refreshToken now resp2 tok1).1 else tok1
  (tok2, (if c1 then 1 else 0) + (if c2 then 1 else 0))

/-- One invocation of a public facade operation of FeishuChannel, or of a
handler reachable from the public interface (the webhook route served by the
server that connect starts, and the two interval timers connect installs).
Each constructor carries the provider responses and abstracted parsing
functions its handler consumes. -/
inductive PublicOp where
  | connect (tokResp : Option TokenResponse)
  | disconnect
  | isConnected
  | sendMessage (chatId text : String) (tokResp : Option TokenResponse)
      (sendResp : Option SendResponse)
  | ownsJid (jid : String)
  | setTyping (jid : String) (b : Bool)
  | syncGroupMetadata (force : Bool) (tokResp : Option TokenResponse)
      (chatsResp : Option ChatsResponse)
  | webhook (hmacF : String → String → String)
      (parse : String → Option Payload) (isoOf : String → String)
      (parseContent : String → Option MsgContent)
      (registered : String → Bool) (cfg : Config) (req : WebhookRequest)
  | tokenTimer (tokResp : Option TokenResponse)
  | syncTimer (tokResp : Option TokenResponse)
      (chatsResp : Option ChatsResponse)

/-- The adapter-owned state together with the external store it writes. -/
structure SysState where
  ch : ChannelState
  db : DbState
deriving DecidableEq, Repr

/-- State transition of one public operation at time now, assembled from the
per-method definitions above.  isConnected (feishu.ts lines 403-405), ownsJid
(407-409) and setTyping (411-415) read state or log only; disconnect
(417-427) clears connected and closes the server; the webhook handler chain
handleWebhookRequest, processEvent and handleMessageEvent reads config and
opts but never touches connected, the token fields, outgoingQueue or
flushing; the token interval timer (lines 142-144) runs refreshToken with
its rejection swallowed; the sync interval timer (lines 149-151) runs
syncGroupMetadata with its rejection swallowed. -/
def stepOp (now : Int) (op : PublicOp) (σ : SysState) : SysState :=
  match op with
  | .connect tokResp => ⟨(connect now tokResp σ.ch).state, σ.db⟩
  | .disconnect => ⟨{ σ.ch with connected := false }, σ.db⟩
  | .isConnected => σ
  | .sendMessage chatId text tokResp sendResp =>
    ⟨(sendMessage now tokResp sendResp chatId text σ.ch).state, σ.db⟩
  | .ownsJid _ => σ
  | .setTyping _ _ => σ
  | .syncGroupMetadata force tokResp chatsResp =>
    let r := syncGroupMetadata now force tokResp chatsResp σ.ch.tok σ.db
    ⟨{ σ.ch with tok := r.tok }, r.db⟩
  | .webhook hmacF parse isoOf parseContent registered cfg req =>
    let outcome := handleWebhookRequest hmacF parse cfg req
    let _traces := outcome.asyncEvents.map
      (fun e => processEvent isoOf parseContent registered e.1 e.2)
    σ
  | .tokenTimer tokResp =>
    ⟨{ σ.ch with tok := (refreshToken now tokResp σ.ch.tok).1 }, σ.db⟩
  | .syncTimer tokResp chatsResp =>
    let r := syncGroupMetadata now false tokResp chatsResp σ.ch.tok σ.db
    ⟨{ σ.ch with tok := r.tok }, r.db⟩

/-- Run a sequence of timed public operations from an initial state. -/
def runOps : List (Int × PublicOp) → SysState → SysState
  | [], σ => σ
  | (t, op) :: rest, σ => runOps rest (stepOp t op σ)

end Feishu

namespace FeishuSdkWs

/-- FeishuChannel.handleMessageEvent of the SDK WebSocket variant
(feishu-sdk-ws.ts lines 109-154).  Same shape as the webhook variant, with
two differences visible here: the whole body is wrapped in a try/catch that
swallows errors, and the early return for unregistered chats is commented
out (line 130), so the message is processed and onMessage invoked even when
the chat is absent from registeredGroups(). -/
def handleMessageEvent (isoOf : String → String)
    (parseContent : String → Option Feishu.MsgContent)
    (registered : String → Bool) (ev : Feishu.EventBody) :
    Feishu.CallbackTrace :=
  if ev.sender.sender_type == "app" then ⟨[], []⟩
  else
    let chatJid := "feishu_" ++ ev.message.chat_id ++ "@feishu.net"
    let ts := isoOf ev.message.create_time
    let meta := [(chatJid, ts)]
    let _unregistered := !(registered chatJid)
    match parseContent ev.message.content with
    | none => ⟨meta, []⟩
    | some c =>
      let text := c.text.getD ("")
      let senderName :=
        Feishu.jsOr ev.sender.sender_id.user_id
          (Feishu.jsOr ev.sender.sender_id.open_id ("Unknown"))
      ⟨meta,
        [(chatJid,
          { id := ev.message.message_id
            chat_jid := chatJid
            sender := Feishu.jsOr ev.sender.sender_id.open_id
                        ev.sender.sender_id.user_id
            sender_name := senderName
            content := text
            timestamp := ts
            is_from_me := false })]⟩

end FeishuSdkWs

namespace Feishu

theorem ensureToken_not_stale (now : Int) (resp : Option TokenResponse)
    (tok : TokState) (h : ensureStale now tok = false) :
    ensureToken now resp tok = ⟨tok, none, tok.tenantToken.getD (""), 0⟩ := by
  simp [ensureToken, h]

theorem ensureTokenSeq_not_stale (now : Int) (resp : Option TokenResponse)
    (tok : TokState) (h : ensureStale now tok = false) :
    ∀ n, ensureTokenSeq now resp tok n = (tok, 0) := by
  intro n
  induction n with
  | zero => rfl
  | succ n ih => simp [ensureTokenSeq, ensureToken_not_stale now resp tok h, ih]

theorem refreshToken_success (now : Int) (r : TokenResponse) (tok : TokState)
    (hok : r.ok = true) (hcode : r.code = 0) :
    refreshToken now (some r) tok =
      (⟨some r.tenant_access_token, now + r.expire * 1000⟩, none) := by
  simp [refreshToken, hok, hcode]

/-- C9: a token refresh that fails with a network error, a non-OK HTTP
response or a provider error code propagates the error to its caller and
leaves the previously stored token and expiry untouched; a still-valid
cached token therefore keeps serving ensureToken without a refresh. -/
theorem refreshToken_failure_preserves_token (now : Int)
    (resp : Option TokenResponse) (tok : TokState)
    (h : tokenRespFails resp = true) :
    (refreshToken now resp tok).1 = tok ∧
      (refreshToken now resp tok).2 ≠ none ∧
      (ensureStale now tok = false →
        (ensureToken now resp tok).token = tok.tenantToken.getD ("") ∧
          (ensureToken now resp tok).refreshes = 0) := by
  refine ⟨?_, ?_, ?_⟩
  · rcases resp with _ | r
    · rfl
    · simp only [tokenRespFails, Bool.or_eq_true, Bool.not_eq_true',
        bne_iff_ne, ne_eq] at h
      rcases h with h | h
      · simp [refreshToken, h]
      · cases hok : r.ok <;> simp [refreshToken, h, hok]
  · rcases resp with _ | r
    · simp [refreshToken]
    · simp only [tokenRespFails, Bool.or_eq_true, Bool.not_eq_true',
        bne_iff_ne, ne_eq] at h
      rcases h with h | h
      · simp [refreshToken, h]
      · cases hok : r.ok <;> simp [refreshToken, h, hok]
  · intro hns
    rw [ensureToken_not_stale now resp tok hns]
    exact ⟨rfl, rfl⟩

theorem refreshToken_failure_preserves_token_witness :
    (refreshToken 0 none (TokState.mk (some ("tok")) 1000000000)).1
        = TokState.mk (some ("tok")) 1000000000 ∧
      (refreshToken 0 none (TokState.mk (some ("tok")) 1000000000)).2 ≠ none ∧
      (ensureToken 0 none (TokState.mk (some ("tok")) 1000000000)).token = "tok" ∧
      (ensureToken 0 none (TokState.mk (some ("tok")) 1000000000)).refreshes = 0 := by
  have h := refreshToken_failure_preserves_token 0 none
    (TokState.mk (some ("tok")) 1000000000) (by decide)
  exact ⟨h.1, h.2.1, h.2.2 (by decide)⟩

/-- C5 counterexample: a successful ensureToken call can return a token that
is already within the safety margin of its expiry.  With an empty cache and a
refresh that succeeds with a 100-second lifetime, ensureToken resolves with
the fresh token although its expiry (100000 ms) is within the 5-minute
margin of the call instant. -/
theorem ensureToken_short_lifetime_cex :
    (ensureToken 0 (some (TokenResponse.mk true 0 ("tok") 100))
        (TokState.mk none 0)).err = none ∧
      (ensureToken 0 (some (TokenResponse.mk true 0 ("tok") 100))
        (TokState.mk none 0)).token = "tok" ∧
      (ensureToken 0 (some (TokenResponse.mk true 0 ("tok") 100))
        (TokState.mk none 0)).tok.tokenExpiry - 0 ≤ marginMs := by
  decide

/-- C5 (amended): a successful ensureToken call returns a token outside the
safety margin provided every successful refresh response carries a lifetime
exceeding the margin (expire * 1000 > 300000 ms); and whenever the cached
token is missing or already within the margin, the call performs exactly one
refresh first. -/
theorem ensureToken_margin (now : Int) (resp : Option TokenResponse)
    (tok : TokState)
    (hlife : ∀ r, resp = some r → r.ok = true → r.code = 0 →
      marginMs < r.expire * 1000)
    (hok : (ensureToken now resp tok).err = none) :
    marginMs < (ensureToken now resp tok).tok.tokenExpiry - now ∧
      (ensureStale now tok = true →
        (ensureToken now resp tok).refreshes = 1) := by
  by_cases hs : ensureStale now tok
  · rcases resp with _ | r
    · simp [ensureToken, hs, refreshToken] at hok
    · by_cases hrok : r.ok
      · by_cases hrcode : r.code = 0
        · have hr := refreshToken_success now r tok hrok hrcode
          have hl := hlife r rfl hrok hrcode
          simp [ensureToken, hs, hr]
          omega
        · simp [ensureToken, hs, refreshToken, hrok, hrcode] at hok
      · simp [ensureToken, hs, refreshToken, hrok] at hok
  · have hs' : ensureStale now tok = false := by simpa using hs
    rw [ensureToken_not_stale now resp tok hs']
    constructor
    · show marginMs < tok.tokenExpiry - now
      simp only [ensureStale, Bool.or_eq_false_iff, decide_eq_false_iff_not,
        not_le] at hs'
      omega
    · intro hcontra
      rw [hcontra] at hs'
      exact absurd hs' (by simp)

theorem ensureToken_margin_witness :
    (∀ r, (some (TokenResponse.mk true 0 ("fresh") 7200) = some r) →
        r.ok = true → r.code = 0 → marginMs < r.expire * 1000) ∧
      (ensureToken 0 (some (TokenResponse.mk true 0 ("fresh") 7200))
          (TokState.mk none 0)).err = none ∧
      marginMs <
        (ensureToken 0 (some (TokenResponse.mk true 0 ("fresh") 7200))
          (TokState.mk none 0)).tok.tokenExpiry - 0 ∧
      (ensureToken 0 (some (TokenResponse.mk true 0 ("fresh") 7200))
          (TokState.mk none 0)).refreshes = 1 := by
  have hlife : ∀ r, (some (TokenResponse.mk true 0 ("fresh") 7200) = some r) →
      r.ok = true → r.code = 0 → marginMs < r.expire * 1000 := by
    intro r hr _ _
    cases Option.some.inj hr
    decide
  have h := ensureToken_margin 0 (some (TokenResponse.mk true 0 ("fresh") 7200))
    (TokState.mk none 0) hlife (by decide)
  exact ⟨hlife, by decide, h.1, h.2 (by decide)⟩

/-- C6 counterexample: concurrent ensureToken calls do not coalesce onto a
single in-flight refresh.  After a prior refresh left a token expiring at
400000 ms, two calls at 200000 ms — inside the safety margin, so each is
entitled to refresh — that both run their staleness check before either
refresh resolves issue two network refresh requests, not at most one. -/
theorem ensureToken_no_coalescing_cex :
    (200000 : Int) ≥ 400000 - marginMs ∧
      (interleavedEnsure2 200000 (some (TokenResponse.mk true 0 ("tok2") 7200))
          (some (TokenResponse.mk true 0 ("tok2") 7200))
          (TokState.mk (some ("t")) 400000)).2 = 2 := by
  decide

/-- C6 (amended): sequential calls coalesce through the cache — N calls to
ensureToken at one instant, with the refresh endpoint answering successfully
with a non-empty token whose lifetime exceeds the safety margin, issue at
most one network refresh in total — but concurrent calls do not coalesce:
whenever the cached token is stale, two interleaved calls that both pass the
staleness check before either refresh resolves each issue their own network
refresh request. -/
theorem ensureToken_refresh_coalescing (now : Int) (r : TokenResponse)
    (tok : TokState) (n : Nat) (hok : r.ok = true) (hcode : r.code = 0)
    (htok : r.tenant_access_token ≠ "") (hlife : marginMs < r.expire * 1000) :
    (ensureTokenSeq now (some r) tok n).2 ≤ 1 ∧
      (∀ resp1 resp2 tok₂, ensureStale now tok₂ = true →
        (interleavedEnsure2 now resp1 resp2 tok₂).2 = 2) := by
  constructor
  · by_cases hs : ensureStale now tok
    · cases n with
      | zero => simp [ensureTokenSeq]
      | succ n =>
        have hr := refreshToken_success now r tok hok hcode
        have hfresh : ensureStale now
            (TokState.mk (some r.tenant_access_token)
              (now + r.expire * 1000)) = false := by
          simp only [ensureStale, strFalsy, Bool.or_eq_false_iff,
            beq_eq_false_iff_ne, ne_eq, decide_eq_false_iff_not, not_le]
          exact ⟨htok, by omega⟩
        simp [ensureTokenSeq, ensureToken, hs, hr,
          ensureTokenSeq_not_stale now (some r) _ hfresh n]
    · have hs' : ensureStale now tok = false := by simpa using hs
      simp [ensureTokenSeq_not_stale now (some r) tok hs' n]
  · intro resp1 resp2 tok₂ hstale
    simp [interleavedEnsure2, hstale]

theorem ensureToken_refresh_coalescing_witness :
    (ensureTokenSeq 0 (some (TokenResponse.mk true 0 ("tok") 7200))
        (TokState.mk none 0) 3).2 ≤ 1 ∧
      (interleavedEnsure2 0 none none (TokState.mk none 0)).2 = 2 := by
  have h := ensureToken_refresh_coalescing 0 (TokenResponse.mk true 0 ("tok") 7200)
    (TokState.mk none 0) 3 rfl rfl (by decide) (by decide)
  exact ⟨h.1, h.2 none none (TokState.mk none 0) (by decide)⟩

/-- C7 counterexample: the challenge echo is not unconditional.  With a
signing secret configured, a POST to the webhook route whose JSON body is a
url_verification challenge but which carries no signature header is answered
401, not 200 with the challenge echo: the signature check (feishu.ts
line 202) runs before the url_verification branch (line 223). -/
theorem webhook_challenge_cex :
    (handleWebhookRequest (fun _ _ => "sig")
        (fun _ => some (Payload.urlVerification ("abc123")))
        (Config.mk ("app") ("sec") ("vt") (some ("key")) 3001)
        (WebhookRequest.mk ("/webhook/feishu") ("POST") ("body") none)).response.status
      = 401 ∧
      (handleWebhookRequest (fun _ _ => "sig")
        (fun _ => some (Payload.urlVerification ("abc123")))
        (Config.mk ("app") ("sec") ("vt") (some ("key")) 3001)
        (WebhookRequest.mk ("/webhook/feishu") ("POST") ("body") none)).response.status
      ≠ 200 := by
  decide

/-- C7 (amended): every POST to the webhook route whose JSON body is a
url_verification challenge with value c, and which passes the signature
check (no truthy signing secret configured, or a non-empty signature header
equal to the HMAC digest of the raw body), is answered status 200 with body
equal to the challenge echo of c, synchronously and with no asynchronous
event processing, regardless of the registry contents, the credential state
(neither appears in the handler) and the verification-token configuration. -/
theorem webhook_challenge_roundtrip (hmacF : String → String → String)
    (parse : String → Option Payload) (cfg : Config) (req : WebhookRequest)
    (c : String) (hpath : req.path = "/webhook/feishu")
    (hmethod : req.method = "POST")
    (hparse : parse req.body = some (Payload.urlVerification c))
    (hsig : strFalsy cfg.encryptKey = true ∨
      (req.signature = some (hmacF (cfg.encryptKey.getD ("")) req.body) ∧
        hmacF (cfg.encryptKey.getD ("")) req.body ≠ "")) :
    handleWebhookRequest hmacF parse cfg req =
      ⟨⟨200, RespBody.challengeJson c⟩, []⟩ := by
  rcases hsig with hE | ⟨hsg, hne⟩
  · simp [handleWebhookRequest, hpath, hmethod, hE, hparse]
  · by_cases hE : strFalsy cfg.encryptKey
    · simp [handleWebhookRequest, hpath, hmethod, hE, hparse]
    · have hE' : strFalsy cfg.encryptKey = false := by simpa using hE
      simp [handleWebhookRequest, hpath, hmethod, hE', hsg, hne,
        verifySignature, hparse]

theorem webhook_challenge_roundtrip_witness :
    handleWebhookRequest (fun k b => k ++ b)
        (fun _ => some (Payload.urlVerification ("abc123")))
        (Config.mk ("app") ("sec") ("vt") (some ("key")) 3001)
        (WebhookRequest.mk ("/webhook/feishu") ("POST") ("body") (some ("keybody"))) =
      ⟨⟨200, RespBody.challengeJson ("abc123")⟩, []⟩ :=
  webhook_challenge_roundtrip (fun k b => k ++ b)
    (fun _ => some (Payload.urlVerification ("abc123")))
    (Config.mk ("app") ("sec") ("vt") (some ("key")) 3001)
    (WebhookRequest.mk ("/webhook/feishu") ("POST") ("body") (some ("keybody")))
    "abc123" rfl rfl rfl (Or.inr (by exact ⟨by decide, by decide⟩))

/-- C8: with a signing secret configured, a POST to the webhook route whose
signature header does not equal the HMAC digest of the raw body under that
secret (including a missing header) is answered status 401, and no event is
forwarded to asynchronous processing, so neither onMessage nor
onChatMetadata can be invoked for it. -/
theorem webhook_bad_signature_rejected (hmacF : String → String → String)
    (parse : String → Option Payload) (cfg : Config) (req : WebhookRequest)
    (k : String) (hk : cfg.encryptKey = some k) (hkne : k ≠ "")
    (hpath : req.path = "/webhook/feishu") (hmethod : req.method = "POST")
    (hsig : req.signature ≠ some (hmacF k req.body)) :
    (handleWebhookRequest hmacF parse cfg req).response.status = 401 ∧
      (handleWebhookRequest hmacF parse cfg req).asyncEvents = [] := by
  have hfail :
      (if strFalsy cfg.encryptKey then false
       else
         match req.signature with
         | none => true
         | some sg =>
           sg == "" ||
             !(verifySignature hmacF (cfg.encryptKey.getD ("")) req.body sg))
        = true := by
    rcases hq : req.signature with _ | sg
    · simp [hk, strFalsy, hkne]
    · have hne : sg ≠ hmacF k req.body := by
        intro hcontra
        exact hsig (by rw [hq, hcontra])
      simp [hk, strFalsy, hkne, verifySignature]
      exact Or.inr (fun h => hne h.symm)
  constructor <;>
    simp [handleWebhookRequest, hpath, hmethod, hfail]

theorem webhook_bad_signature_rejected_witness :
    (handleWebhookRequest (fun k b => k ++ b) (fun _ => some Payload.other)
        (Config.mk ("app") ("sec") ("vt") (some ("key")) 3001)
        (WebhookRequest.mk ("/webhook/feishu") ("POST") ("body")
          (some ("bad")))).response.status = 401 ∧
      (handleWebhookRequest (fun k b => k ++ b) (fun _ => some Payload.other)
        (Config.mk ("app") ("sec") ("vt") (some ("key")) 3001)
        (WebhookRequest.mk ("/webhook/feishu") ("POST") ("body")
          (some ("bad")))).asyncEvents = [] :=
  webhook_bad_signature_rejected (fun k b => k ++ b)
    (fun _ => some Payload.other) (Config.mk ("app") ("sec") ("vt") (some ("key")) 3001)
    (WebhookRequest.mk ("/webhook/feishu") ("POST") ("body") (some ("bad")))
    "key" rfl (by decide) rfl rfl (by decide)

/-- C3 counterexample: the claimed callback pattern for unregistered chats
fails twice on the code.  First, in the webhook variant an event from the
bot itself whose chat is unregistered invokes onChatMetadata zero times, not
exactly once (the self-check on feishu.ts line 278 returns before the
onChatMetadata call on line 287).  Second, in the SDK WebSocket variant a
user event for an unregistered chat does invoke onMessage (the unregistered
early return is commented out, feishu-sdk-ws.ts line 130). -/
theorem registration_gate_cex :
    (handleMessageEvent id (fun _ => some (MsgContent.mk (some ("hi"))))
        (fun _ => false)
        (EventBody.mk (EventSender.mk (SenderId.mk ("u") ("u") ("o")) ("app"))
          (EventMessage.mk ("m1") ("123") ("X") ("raw")))).metadataCalls.length = 0 ∧
      (FeishuSdkWs.handleMessageEvent id
        (fun _ => some (MsgContent.mk (some ("hi")))) (fun _ => false)
        (EventBody.mk (EventSender.mk (SenderId.mk ("u") ("uid") ("oid")) ("user"))
          (EventMessage.mk ("m1") ("123") ("Y") ("raw")))).messageCalls.length = 1 := by
  decide

/-- C3 (amended): in the webhook variant, for every inbound message event
whose sender is not the bot itself and whose computed chatKey is absent from
registeredGroups(), onMessage is never invoked and onChatMetadata is invoked
exactly once; an event from the bot itself invokes neither callback; in the
SDK WebSocket variant, whose registration gate is disabled, a non-self event
whose content parses invokes onChatMetadata once and also onMessage once
even when the chat is unregistered. -/
theorem registration_gate (isoOf : String → String)
    (parseContent : String → Option MsgContent) (registered : String → Bool)
    (ev : EventBody) :
    (ev.sender.sender_type ≠ "app" →
      registered ("feishu_" ++ ev.message.chat_id ++ "@feishu.net") = false →
      handleMessageEvent isoOf parseContent registered ev =
        ⟨[("feishu_" ++ ev.message.chat_id ++ "@feishu.net",
            isoOf ev.message.create_time)], []⟩) ∧
      (ev.sender.sender_type = "app" →
        handleMessageEvent isoOf parseContent registered ev = ⟨[], []⟩) ∧
      (ev.sender.sender_type ≠ "app" →
        ∀ c, parseContent ev.message.content = some c →
          (FeishuSdkWs.handleMessageEvent isoOf parseContent registered
              ev).metadataCalls.length = 1 ∧
            (FeishuSdkWs.handleMessageEvent isoOf parseContent registered
              ev).messageCalls.length = 1) := by
  refine ⟨?_, ?_, ?_⟩
  · intro hne hreg
    simp [handleMessageEvent, hne, hreg]
  · intro happ
    simp [handleMessageEvent, happ]
  · intro hne c hc
    constructor <;> simp [FeishuSdkWs.handleMessageEvent, hne, hc]

theorem registration_gate_witness :
    (handleMessageEvent id (fun _ => some (MsgContent.mk (some ("hi"))))
        (fun _ => false)
        (EventBody.mk (EventSender.mk (SenderId.mk ("u") ("uid") ("oid")) ("user"))
          (EventMessage.mk ("m1") ("123") ("Z") ("raw")))) =
      ⟨[("feishu_Z@feishu.net", "123")], []⟩ ∧
      (handleMessageEvent id (fun _ => some (MsgContent.mk (some ("hi"))))
        (fun _ => false)
        (EventBody.mk (EventSender.mk (SenderId.mk ("u") ("u") ("o")) ("app"))
          (EventMessage.mk ("m1") ("123") ("Z") ("raw")))) = ⟨[], []⟩ ∧
      (FeishuSdkWs.handleMessageEvent id
        (fun _ => some (MsgContent.mk (some ("hi")))) (fun _ => false)
        (EventBody.mk (EventSender.mk (SenderId.mk ("u") ("uid") ("oid")) ("user"))
          (EventMessage.mk ("m1") ("123") ("Z") ("raw")))).messageCalls.length = 1 := by
  refine ⟨?_, ?_, ?_⟩
  · exact (registration_gate id (fun _ => some (MsgContent.mk (some ("hi"))))
      (fun _ => false)
      (EventBody.mk (EventSender.mk (SenderId.mk ("u") ("uid") ("oid")) ("user"))
        (EventMessage.mk ("m1") ("123") ("Z") ("raw")))).1 (by decide) rfl
  · exact (registration_gate id (fun _ => some (MsgContent.mk (some ("hi"))))
      (fun _ => false)
      (EventBody.mk (EventSender.mk (SenderId.mk ("u") ("u") ("o")) ("app"))
        (EventMessage.mk ("m1") ("123") ("Z") ("raw")))).2.1 rfl
  · exact ((registration_gate id (fun _ => some (MsgContent.mk (some ("hi"))))
      (fun _ => false)
      (EventBody.mk (EventSender.mk (SenderId.mk ("u") ("uid") ("oid")) ("user"))
        (EventMessage.mk ("m1") ("123") ("Z") ("raw")))).2.2 (by decide)
      (MsgContent.mk (some ("hi"))) rfl).2

/-- C1: evaluation of the claimed scenario on the code.  Two sendMessage
calls issued while disconnected queue A then B without a delivery attempt;
connect then succeeds; yet the connected state still holds both items
untouched and connect made no delivery attempt for either — no code path
invokes flushOutgoingQueue, so the queued items are never drained.  The
final conjunct shows the drain routine itself, had it been invoked on that
queue, would have attempted A strictly before B (head-to-tail), which is
what the claim describes. -/
theorem queued_messages_not_drained_after_connect :
    (sendMessage 0 none none ("feishu_A@feishu.net") ("hello A")
        (ChannelState.mk false (TokState.mk none 0) [] false)).attempts = [] ∧
      (sendMessage 0 none none ("feishu_B@feishu.net") ("hello B")
        (sendMessage 0 none none ("feishu_A@feishu.net") ("hello A")
          (ChannelState.mk false (TokState.mk none 0) [] false)).state).attempts
        = [] ∧
      (connect 0 (some (TokenResponse.mk true 0 ("tok") 7200))
        (sendMessage 0 none none ("feishu_B@feishu.net") ("hello B")
          (sendMessage 0 none none ("feishu_A@feishu.net") ("hello A")
            (ChannelState.mk false (TokState.mk none 0) [] false)).state).state).err
        = none ∧
      (connect 0 (some (TokenResponse.mk true 0 ("tok") 7200))
        (sendMessage 0 none none ("feishu_B@feishu.net") ("hello B")
          (sendMessage 0 none none ("feishu_A@feishu.net") ("hello A")
            (ChannelState.mk false (TokState.mk none 0) [] false)).state).state).state.connected
        = true ∧
      (connect 0 (some (TokenResponse.mk true 0 ("tok") 7200))
        (sendMessage 0 none none ("feishu_B@feishu.net") ("hello B")
          (sendMessage 0 none none ("feishu_A@feishu.net") ("hello A")
            (ChannelState.mk false (TokState.mk none 0) [] false)).state).state).attempts
        = [] ∧
      (connect 0 (some (TokenResponse.mk true 0 ("tok") 7200))
        (sendMessage 0 none none ("feishu_B@feishu.net") ("hello B")
          (sendMessage 0 none none ("feishu_A@feishu.net") ("hello A")
            (ChannelState.mk false (TokState.mk none 0) [] false)).state).state).state.outgoingQueue
        = [OutItem.mk ("A") ("hello A"), OutItem.mk ("B") ("hello B")] ∧
      (flushGo 0 (fun _ => (none, some (SendResponse.mk true 0))) 0
        [OutItem.mk ("A") ("hello A"), OutItem.mk ("B") ("hello B")]
        (TokState.mk (some ("tok")) 7200000)).attempts
        = [OutItem.mk ("A") ("hello A"), OutItem.mk ("B") ("hello B")] := by
  decide

/-- C2 counterexample: a failed delivery attempt is not always re-enqueued.
During a flushOutgoingQueue run over the one-item queue [(c, hello)] with a
valid cached token, the delivery attempt for that pair fails, the drain
aborts with the thrown error, and the resulting queue is empty: the pair is
lost rather than reappearing at the tail. -/
theorem flush_failure_drops_item_cex :
    (flushOutgoingQueue 0 (fun _ => (none, some (SendResponse.mk false 0)))
        (ChannelState.mk true (TokState.mk (some ("tok")) 1000000000)
          [OutItem.mk ("c") ("hello")] false)).attempts
      = [OutItem.mk ("c") ("hello")] ∧
      (flushOutgoingQueue 0 (fun _ => (none, some (SendResponse.mk false 0)))
        (ChannelState.mk true (TokState.mk (some ("tok")) 1000000000)
          [OutItem.mk ("c") ("hello")] false)).aborted = true ∧
      (flushOutgoingQueue 0 (fun _ => (none, some (SendResponse.mk false 0)))
        (ChannelState.mk true (TokState.mk (some ("tok")) 1000000000)
          [OutItem.mk ("c") ("hello")] false)).state.outgoingQueue = [] := by
  decide

/-- C2 (amended): a delivery attempt made by sendMessage while connected that
throws (network error, non-OK response or provider error code) appends the
same stripped pair to the tail of the outbound queue, and the error is never
surfaced to the caller — sendMessage is total, its promise resolves; a
delivery failure inside a flushOutgoingQueue run, by contrast, aborts the
drain and the failed pair is removed from the queue, not re-enqueued. -/
theorem send_failure_requeues_at_tail (now : Int)
    (tokResp : Option TokenResponse) (sendResp : Option SendResponse)
    (chatId text : String) (s : ChannelState) (hconn : s.connected = true)
    (hfail : (sendMessageToFeishu now tokResp sendResp s.tok).err ≠ none) :
    (sendMessage now tokResp sendResp chatId text s).state.outgoingQueue
        = s.outgoingQueue ++ [OutItem.mk (stripJid chatId) text] ∧
      (∀ oracle : Nat → Option TokenResponse × Option SendResponse,
        ∀ (item : OutItem) (rest : List OutItem) (tok : TokState),
        (sendMessageToFeishu now (oracle 0).1 (oracle 0).2 tok).err ≠ none →
          (flushGo now oracle 0 (item :: rest) tok).queue = rest ∧
            (flushGo now oracle 0 (item :: rest) tok).aborted = true) := by
  constructor
  · rcases he : (sendMessageToFeishu now tokResp sendResp s.tok).err with _ | e
    · exact absurd he hfail
    · simp [sendMessage, hconn, he]
  · intro oracle item rest tok hf
    rcases he : (sendMessageToFeishu now (oracle 0).1 (oracle 0).2 tok).err
      with _ | e
    · exact absurd he hf
    · constructor <;> simp [flushGo, he]

theorem send_failure_requeues_at_tail_witness :
    (sendMessage 0 none (some (SendResponse.mk false 0))
        "feishu_A@feishu.net" "hi"
        (ChannelState.mk true (TokState.mk (some ("tok")) 1000000000) []
          false)).state.outgoingQueue = [OutItem.mk ("A") ("hi")] ∧
      (flushGo 0 (fun _ => (none, some (SendResponse.mk false 0))) 0
        [OutItem.mk ("c") ("hello")]
        (TokState.mk (some ("tok")) 1000000000)).queue = [] := by
  have h := send_failure_requeues_at_tail 0 none
    (some (SendResponse.mk false 0)) ("feishu_A@feishu.net") ("hi")
    (ChannelState.mk true (TokState.mk (some ("tok")) 1000000000) [] false)
    rfl (by decide)
  refine ⟨by rw [h.1]; decide, ?_⟩
  exact (h.2 (fun _ => (none, some (SendResponse.mk false 0)))
    (OutItem.mk ("c") ("hello")) [] (TokState.mk (some ("tok")) 1000000000)
    (by decide)).1

theorem connect_queue_unchanged (now : Int) (tokResp : Option TokenResponse)
    (s : ChannelState) :
    (connect now tokResp s).state.outgoingQueue = s.outgoingQueue := by
  unfold connect
  rcases refreshToken now tokResp s.tok with ⟨tok₁, e⟩
  cases e <;> rfl

theorem sendMessage_queue_extends (now : Int) (tokResp : Option TokenResponse)
    (sendResp : Option SendResponse) (chatId text : String)
    (s : ChannelState) :
    ∃ t, (sendMessage now tokResp sendResp chatId text s).state.outgoingQueue
      = s.outgoingQueue ++ t := by
  unfold sendMessage
  cases hc : s.connected
  · exact ⟨[⟨stripJid chatId, text⟩], rfl⟩
  · simp only [Bool.not_true, Bool.false_eq_true, if_false]
    rcases he : (sendMessageToFeishu now tokResp sendResp s.tok).err with _ | e
    · exact ⟨[], by simp [he]⟩
    · exact ⟨[⟨stripJid chatId, text⟩], by simp [he]⟩

theorem stepOp_queue_extends (now : Int) (op : PublicOp) (σ : SysState) :
    ∃ t, (stepOp now op σ).ch.outgoingQueue = σ.ch.outgoingQueue ++ t := by
  cases op with
  | connect tokResp =>
    exact ⟨[], by simp [stepOp, connect_queue_unchanged]⟩
  | disconnect => exact ⟨[], by simp [stepOp]⟩
  | isConnected => exact ⟨[], by simp [stepOp]⟩
  | sendMessage chatId text tokResp sendResp =>
    rcases sendMessage_queue_extends now tokResp sendResp chatId text σ.ch
      with ⟨t, ht⟩
    exact ⟨t, by simpa [stepOp] using ht⟩
  | ownsJid jid => exact ⟨[], by simp [stepOp]⟩
  | setTyping jid b => exact ⟨[], by simp [stepOp]⟩
  | syncGroupMetadata force tokResp chatsResp => exact ⟨[], by simp [stepOp]⟩
  | webhook hmacF parse isoOf parseContent registered cfg req =>
    exact ⟨[], by simp [stepOp]⟩
  | tokenTimer tokResp => exact ⟨[], by simp [stepOp]⟩
  | syncTimer tokResp chatsResp => exact ⟨[], by simp [stepOp]⟩

theorem runOps_queue_extends (ops : List (Int × PublicOp)) (σ : SysState) :
    ∃ t, (runOps ops σ).ch.outgoingQueue = σ.ch.outgoingQueue ++ t := by
  induction ops generalizing σ with
  | nil => exact ⟨[], by simp [runOps]⟩
  | cons hd tl ih =>
    rcases stepOp_queue_extends hd.1 hd.2 σ with ⟨t₁, ht₁⟩
    rcases ih (stepOp hd.1 hd.2 σ) with ⟨t₂, ht₂⟩
    refine ⟨t₁ ++ t₂, ?_⟩
    rw [runOps]
    rw [ht₂, ht₁, List.append_assoc]

/-- C4: under every sequence of operations reachable from the public facade —
connect, disconnect, isConnected, sendMessage, ownsJid, setTyping,
syncGroupMetadata, the webhook handler chain, and the interval timers
connect installs — the outbound queue is only ever extended at its tail, so
its length is non-decreasing: the only dequeuing routine, the private
flushOutgoingQueue, is invoked by none of these code paths. -/
theorem public_ops_never_dequeue (ops : List (Int × PublicOp))
    (σ : SysState) :
    (∃ t, (runOps ops σ).ch.outgoingQueue = σ.ch.outgoingQueue ++ t) ∧
      σ.ch.outgoingQueue.length ≤ (runOps ops σ).ch.outgoingQueue.length := by
  rcases runOps_queue_extends ops σ with ⟨t, ht⟩
  exact ⟨⟨t, ht⟩, by rw [ht]; simp⟩

theorem sync_failure_preserves_db (now : Int) (force : Bool)
    (tokR : Option TokenResponse) (cresp : Option ChatsResponse)
    (tok' : TokState) (db' : DbState)
    (hfail : (ensureToken now tokR tok').err ≠ none ∨
      chatsRespFails cresp = true) :
    (syncGroupMetadata now force tokR cresp tok' db').db = db' := by
  cases hs : (!force && (match db'.lastGroupSync with
      | some t => decide (now - t < groupSyncIntervalMs)
      | none => false)) with
  | true => simp [syncGroupMetadata, hs]
  | false =>
    rcases he : (ensureToken now tokR tok').err with _ | e
    · rcases hfail with hf | hf
      · exact absurd he hf
      · rcases hq : cresp with _ | rr
        · simp [syncGroupMetadata, hs, he]
        · rw [hq] at hf
          simp only [chatsRespFails, Bool.or_eq_true, Bool.not_eq_true',
            bne_iff_ne, ne_eq] at hf
          rcases hf with hf | hf
          · simp [syncGroupMetadata, hs, he, hf]
          · cases hrok : rr.ok <;> simp [syncGroupMetadata, hs, he, hf, hrok]
    · simp [syncGroupMetadata, hs, he]

theorem sync_skips_recent (now : Int) (tokR : Option TokenResponse)
    (cresp : Option ChatsResponse) (tok : TokState) (db : DbState) (t : Int)
    (ht : db.lastGroupSync = some t) (h : now - t < groupSyncIntervalMs) :
    syncGroupMetadata now false tokR cresp tok db = ⟨tok, db, 0⟩ := by
  simp [syncGroupMetadata, ht, h]

/-- C10: calling syncGroupMetadata(force = false) twice within the sync
interval performs exactly one network call to the chat-list endpoint — the
first call, starting from a missing or stale cursor and succeeding, makes
one call and stamps lastSyncedAt with its instant; the second call within
24 hours of that stamp short-circuits and makes none — and whenever the
token acquisition or the chat-list interaction fails, the whole sync leaves
the external store untouched, so lastSyncedAt is written only after a fully
successful sync. -/
theorem sync_idempotent_within_interval (now1 now2 : Int) (tok : TokState)
    (db : DbState) (tokResp tokResp2 : Option TokenResponse)
    (r : ChatsResponse) (chatsResp2 : Option ChatsResponse)
    (hstale : db.lastGroupSync = none ∨
      ∀ t, db.lastGroupSync = some t → groupSyncIntervalMs ≤ now1 - t)
    (htok : (ensureToken now1 tokResp tok).err = none)
    (hok : r.ok = true) (hcode : r.code = 0) (h12 : now1 ≤ now2)
    (hwin : now2 - now1 < groupSyncIntervalMs) :
    (syncGroupMetadata now1 false tokResp (some r) tok db).listCalls = 1 ∧
      (syncGroupMetadata now1 false tokResp (some r) tok db).db.lastGroupSync
        = some now1 ∧
      (syncGroupMetadata now2 false tokResp2 chatsResp2
        (syncGroupMetadata now1 false tokResp (some r) tok db).tok
        (syncGroupMetadata now1 false tokResp (some r) tok db).db).listCalls
        = 0 ∧
      (syncGroupMetadata now2 false tokResp2 chatsResp2
        (syncGroupMetadata now1 false tokResp (some r) tok db).tok
        (syncGroupMetadata now1 false tokResp (some r) tok db).db).db
        = (syncGroupMetadata now1 false tokResp (some r) tok db).db ∧
      (∀ (now : Int) (force : Bool) (tokR : Option TokenResponse)
        (cresp : Option ChatsResponse) (tok' : TokState) (db' : DbState),
        (ensureToken now tokR tok').err ≠ none ∨ chatsRespFails cresp = true →
        (syncGroupMetadata now force tokR cresp tok' db').db = db') := by
  have hskip : (match db.lastGroupSync with
      | some t => decide (now1 - t < groupSyncIntervalMs)
      | none => false) = false := by
    rcases hstale with h | h
    · simp [h]
    · rcases hq : db.lastGroupSync with _ | t
      · simp
      · have := h t hq
        simp
        omega
  have hfirst : (syncGroupMetadata now1 false tokResp (some r) tok db).listCalls
        = 1 ∧
      (syncGroupMetadata now1 false tokResp (some r) tok db).db.lastGroupSync
        = some now1 := by
    constructor <;> simp [syncGroupMetadata, hskip, htok, hok, hcode]
  have hsecond := sync_skips_recent now2 tokResp2 chatsResp2
    (syncGroupMetadata now1 false tokResp (some r) tok db).tok
    (syncGroupMetadata now1 false tokResp (some r) tok db).db now1
    hfirst.2 (by omega)
  refine ⟨hfirst.1, hfirst.2, by rw [hsecond], by rw [hsecond], ?_⟩
  intro now force tokR cresp tok' db' hfail
  exact sync_failure_preserves_db now force tokR cresp tok' db' hfail

theorem sync_idempotent_within_interval_witness :
    (syncGroupMetadata 0 false none (some (ChatsResponse.mk true 0 []))
        (TokState.mk (some ("tok")) 1000000000) (DbState.mk none [])).listCalls
      = 1 ∧
      (syncGroupMetadata 1000 false none none
        (syncGroupMetadata 0 false none (some (ChatsResponse.mk true 0 []))
          (TokState.mk (some ("tok")) 1000000000) (DbState.mk none [])).tok
        (syncGroupMetadata 0 false none (some (ChatsResponse.mk true 0 []))
          (TokState.mk (some ("tok")) 1000000000)
          (DbState.mk none [])).db).listCalls = 0 ∧
      (syncGroupMetadata 5 false none none (TokState.mk none 0)
        (DbState.mk (some (-172800000)) [])).db
        = DbState.mk (some (-172800000)) [] := by
  have h := sync_idempotent_within_interval 0 1000
    (TokState.mk (some ("tok")) 1000000000) (DbState.mk none []) none none
    (ChatsResponse.mk true 0 []) none (Or.inl rfl) (by decide) rfl rfl
    (by decide) (by decide)
  exact ⟨h.1, h.2.2.1,
    h.2.2.2.2 5 false none none (TokState.mk none 0)
      (DbState.mk (some (-172800000)) []) (Or.inl (by decide))⟩

end Feishu


